import Mathlib

/-!
Shallow embedding of the speech-presence detector and transcript validator
of `src/diarize.py` (class `GeminiSpeechProcessor`), over exact rationals.

Modelling conventions:
* Audio samples are a `List ℚ` of already decoded, down-mixed, normalized
  amplitudes (the decode block, lines 49-80 of the source).  Any exception
  raised while decoding is represented by `DecodeResult.failure`.
* The source compares square roots of mean squares against thresholds
  (`np.sqrt(np.mean(w**2)) > threshold`).  We keep the mean of squares and
  compare with `rmsGt`, which is exactly `sqrt m > t` for `m ≥ 0`:
  `t < 0 ∨ t^2 < m`.  This avoids irrational square roots while preserving
  every comparison the code makes.
* Python `int(0.1 * sample_rate)` is modelled as `sample_rate / 10` in ℕ
  (floor); the two agree for every attainable sample rate.
* `np.mean` of an empty array is NaN in Python; every comparison the code
  performs against it is false, which matches `rmsSq [] = 0` compared via
  `rmsGt` with a nonnegative threshold (the code's threshold is 0.005).
-/

/-- Detector configuration: attributes set in `__init__` (lines 19-20).
The source hard-codes 0.005 and 0.2; `defaultConfig` below records them. -/
structure DetectorConfig where
  silence_threshold : ℚ
  min_speech_duration : ℚ

/-- The constants assigned in `__init__`: 0.005 and 0.2. -/
def defaultConfig : DetectorConfig := ⟨1/200, 1/5⟩

/-- Mean of squared amplitudes of a sample list: `np.mean(xs**2)`.
For the empty list this is `0/0 = 0` in ℚ (NaN in numpy; see header note). -/
def rmsSq (xs : List ℚ) : ℚ :=
  (xs.map (fun x => x * x)).sum / (xs.length : ℚ)

/-- Models the comparison `sqrt meanSq > t` for `meanSq ≥ 0` without taking
square roots: true iff `t < 0` or `t * t < meanSq`. -/
def rmsGt (meanSq t : ℚ) : Bool :=
  decide (t < 0) || decide (t * t < meanSq)

/-- A window is "active" when its RMS exceeds the silence threshold
(line 95: `window_rms > self.silence_threshold`). -/
def windowActive (cfg : DetectorConfig) (window : List ℚ) : Bool :=
  rmsGt (rmsSq window) cfg.silence_threshold

/-- Fuel-indexed form of the window-scan loop (lines 92-96):
`for i in range(0, len(audio_data) - window_size, window_size)`.
The loop body runs exactly while more than one full window of samples
remains, and each analysed slice `audio_data[i:i+window_size]` is full.
The fuel is only a structural-termination device; it is always called with
fuel = length of the list, which suffices. -/
def countActiveAux (cfg : DetectorConfig) (w : ℕ) : ℕ → List ℚ → ℕ
  | 0, _ => 0
  | fuel + 1, samples =>
    if w < samples.length ∧ w ≠ 0 then
      (if windowActive cfg (samples.take w) then 1 else 0) +
        countActiveAux cfg w fuel (samples.drop w)
    else 0

/-- Number of active windows found by the scan (`speech_segments`). -/
def countActive (cfg : DetectorConfig) (w : ℕ) (samples : List ℚ) : ℕ :=
  countActiveAux cfg w samples.length samples

/-- The analysis dict built at lines 100-106.  `rms_sq` holds the square of
the source's `rms_energy` (see header note on square roots). -/
structure AudioAnalysis where
  duration : ℚ
  rms_sq : ℚ
  speech_duration : ℚ
  has_speech : Bool
  silence_ratio : ℚ

/-- The normal computation path of `analyze_audio_content` (lines 82-115),
after decoding succeeded, for `sample_rate ≠ 0` and window size `≥ 1`. -/
def computeAnalysis (cfg : DetectorConfig) (sample_rate : ℕ) (samples : List ℚ) :
    AudioAnalysis :=
  let rms_sq := rmsSq samples
  let duration : ℚ := (samples.length : ℚ) / (sample_rate : ℚ)
  let window_size := sample_rate / 10
  let speech_segments := countActive cfg window_size samples
  let speech_duration : ℚ := (speech_segments : ℚ) * (1/10)
  { duration := duration
    rms_sq := rms_sq
    speech_duration := speech_duration
    has_speech := decide (cfg.min_speech_duration ≤ speech_duration) &&
      rmsGt rms_sq cfg.silence_threshold
    silence_ratio := if 0 < duration then 1 - speech_duration / duration else 1 }

/-- The dict returned by the `except` handler at line 119:
`{'has_speech': True, 'duration': 0, 'rms_energy': 0, 'speech_duration': 0,
'silence_ratio': 1}`. -/
def fallbackAnalysis : AudioAnalysis :=
  { duration := 0
    rms_sq := 0
    speech_duration := 0
    has_speech := true
    silence_ratio := 1 }

/-- Outcome of the external decode block (lines 49-80): either the decoded,
down-mixed, normalized mono samples with the reported frame rate, or any
exception raised while decoding. -/
inductive DecodeResult where
  | failure
  | ok (sample_rate : ℕ) (samples : List ℚ)

/-- `analyze_audio_content` (lines 46-119).  Besides a decode exception, two
in-analysis exceptions also land in the same `except` handler:
`sample_rate = 0` makes `len(audio_data) / sample_rate` raise
ZeroDivisionError (line 86), and `sample_rate / 10 = 0` (i.e. rate ≤ 9)
makes `range(0, n, 0)` raise ValueError (line 92).  All three return the
fail-open `fallbackAnalysis`. -/
def analyze_audio_content (cfg : DetectorConfig) (input : DecodeResult) :
    AudioAnalysis :=
  match input with
  | .failure => fallbackAnalysis
  | .ok sample_rate samples =>
    if sample_rate = 0 then fallbackAnalysis
    else if sample_rate / 10 = 0 then fallbackAnalysis
    else computeAnalysis cfg sample_rate samples

/-- The caller `process` (lines 125-136) proceeds to transcription exactly
when the analysis reports `has_speech` (line 128 short-circuits otherwise). -/
def process_proceeds_to_transcription (cfg : DetectorConfig)
    (input : DecodeResult) : Bool :=
  (analyze_audio_content cfg input).has_speech

/-!
Transcript validator (`_validate_and_print_transcript`, lines 198-253).

The method communicates by printing; we model the observable outcome of a
call as a `VOutcome` value: the parse-failure branch (lines 251-253, which
prints the raw text verbatim), an uncaught exception escaping the method
(Python `TypeError` from comparing a non-numeric confidence at line 218, or
`AttributeError` from `.get`/`.lower()` on a non-dict/non-string at lines
212-226 — `except json.JSONDecodeError` does not catch these), or the
normal outcome carrying the validated entries, the `[FILTERED]` rejection
log, and whether the `[WARNING]` sanity message was printed.
-/

/-- JSON values as produced by `json.loads`. -/
inductive JValue where
  | num (q : ℚ)
  | boolean (b : Bool)
  | str (s : String)
  | null
  | arr (elems : List JValue)
  | obj (fields : List (String × JValue))

/-- Outcome of `json.loads(json_text)` at line 201: either a
`json.JSONDecodeError` (the `.failure` constructor keeps the original raw
text, which the handler at lines 251-253 prints verbatim), or a parsed JSON
array of values.  Note `json.loads "[]"` yields `.ok []`. -/
inductive ParseResult where
  | failure (raw : String)
  | ok (transcript : List JValue)

/-- Rejection reasons of the two `[FILTERED]` branches (lines 219, 227). -/
inductive Reason where
  | LowConfidence
  | SuspiciousContent

/-- Hard-coded validator constants of the source: the `0.7` at line 218 and
the `0.5` default at line 215. -/
def confidence_threshold : ℚ := 7/10

/-- Default confidence used when the field is absent (line 215). -/
def default_confidence : ℚ := 1/2

/-- The `suspicious_phrases` list at lines 223-224: empty in the source. -/
def suspicious_phrases : List String := []

/-- Python's numeric comparison `v < t` on a JSON value: numbers compare
numerically, booleans count as 0/1, anything else raises `TypeError`
(modelled as `none`). -/
def pyLtNum (v : JValue) (t : ℚ) : Option Bool :=
  match v with
  | .num q => some (decide (q < t))
  | .boolean b => some (decide ((if b then (1 : ℚ) else 0) < t))
  | _ => none

/-- Python's `text.lower()`: defined for strings only, anything else raises
`AttributeError` (modelled as `none`). -/
def pyLower (v : JValue) : Option String :=
  match v with
  | .str s => some s.toLower
  | _ => none

/-- Python's substring test `needle in haystack`. -/
def pyIn (needle haystack : String) : Bool :=
  (List.range (haystack.length + 1)).any
    (fun i => decide ((haystack.toList.drop i).take needle.length = needle.toList))

/-- The filtering loop over transcript entries (lines 211-230).  Each entry
must be a JSON object (`entry.get` on anything else raises), its confidence
defaults to 0.5 when absent, a confidence below 0.7 records a LowConfidence
rejection, and a surviving entry whose lower-cased text contains a
suspicious phrase records a SuspiciousContent rejection.  `none` models an
exception escaping the loop. -/
def validateEntries : List JValue → Option (List JValue × List (JValue × Reason))
  | [] => some ([], [])
  | entry :: rest =>
    match entry with
    | .obj fields =>
      match pyLtNum ((fields.lookup "confidence").getD (.num default_confidence))
          confidence_threshold with
      | none => none
      | some true =>
        (validateEntries rest).map
          (fun p => (p.1, (entry, Reason.LowConfidence) :: p.2))
      | some false =>
        match pyLower ((fields.lookup "text").getD (.str "")) with
        | none => none
        | some lowered =>
          if suspicious_phrases.any (fun phrase => pyIn phrase lowered) then
            (validateEntries rest).map
              (fun p => (p.1, (entry, Reason.SuspiciousContent) :: p.2))
          else
            (validateEntries rest).map (fun p => (entry :: p.1, p.2))
    | _ => none

/-- Python `int(q)`: truncation toward zero. -/
def pyInt (q : ℚ) : ℤ :=
  if 0 ≤ q then ⌊q⌋ else ⌈q⌉

/-- The `expected_max_entries = max(1, int(speech_duration / 2))` estimate
at line 234. -/
def expectedMaxEntries (speech_duration : ℚ) : ℤ :=
  max 1 (pyInt (speech_duration / 2))

/-- Observable outcome of one `_validate_and_print_transcript` call. -/
inductive VOutcome where
  | parseFailure (raw : String)
  | crashed
  | success (validated : List JValue) (rejections : List (JValue × Reason))
      (sanity_warning : Bool)

/-- `_validate_and_print_transcript` (lines 198-253).  An empty parsed array
returns early at lines 205-207 with no rejections and no warning; otherwise
the entries are filtered, and the sanity warning is printed (lines 233-237)
exactly when the validated list is non-empty and longer than
`expected_max_entries * 3`. -/
def validate_and_print_transcript (analysis : AudioAnalysis)
    (input : ParseResult) : VOutcome :=
  match input with
  | .failure raw => .parseFailure raw
  | .ok transcript =>
    if transcript.isEmpty then .success [] [] false
    else
      match validateEntries transcript with
      | none => .crashed
      | some (validated, rejections) =>
        .success validated rejections
          (if 0 < validated.length then
            decide (expectedMaxEntries analysis.speech_duration * 3
              < (validated.length : ℤ))
          else false)

/-- Discriminator for the normal-outcome constructor of `VOutcome`. -/
def VOutcome.isSuccess : VOutcome → Bool
  | .success _ _ _ => true
  | _ => false

/-- Helper: an entry that is a JSON object with no `confidence` key. -/
def entryOmitsConfidence (e : JValue) : Bool :=
  match e with
  | .obj fields => (fields.lookup "confidence").isNone
  | _ => false

/-- Helper: the mean of squares of a constant window is the square of the
constant. -/
theorem rmsSq_replicate (w : ℕ) (a : ℚ) (hw : w ≠ 0) :
    rmsSq (List.replicate w a) = a * a := by
  have hwq : (w : ℚ) ≠ 0 := Nat.cast_ne_zero.mpr hw
  rw [rmsSq, List.map_replicate, List.sum_replicate, nsmul_eq_mul,
    List.length_replicate]
  exact mul_div_cancel_left₀ _ hwq

/-- Helper: a constant window above the silence threshold is active. -/
theorem windowActive_replicate (cfg : DetectorConfig) (w : ℕ) (a : ℚ)
    (hw : w ≠ 0) (ha : cfg.silence_threshold < a) :
    windowActive cfg (List.replicate w a) = true := by
  unfold windowActive
  rw [rmsSq_replicate w a hw]
  unfold rmsGt
  rcases lt_or_le cfg.silence_threshold 0 with h | h
  · simp [h]
  · have hsq : cfg.silence_threshold * cfg.silence_threshold < a * a :=
      mul_self_lt_mul_self h ha
    simp [hsq]

/-- Helper: on a constant list of `n` samples, the scan counts exactly
`(n - 1) / w` windows (all active), for any window size `w ≥ 1`.  This is
one fewer than `n / w` whenever `w` divides `n`: the loop bound
`range(0, n - w, w)` stops one window early in that case. -/
theorem countActiveAux_replicate (cfg : DetectorConfig) (w : ℕ) (a : ℚ)
    (hw : 1 ≤ w) (hact : windowActive cfg (List.replicate w a) = true) :
    ∀ fuel n, n ≤ fuel →
      countActiveAux cfg w fuel (List.replicate n a) = (n - 1) / w := by
  intro fuel
  induction fuel with
  | zero =>
    intro n hn
    obtain rfl : n = 0 := Nat.le_zero.mp hn
    simp [countActiveAux]
  | succ fuel ih =>
    intro n hn
    by_cases hwn : w < n
    · have hcond : w < (List.replicate n a).length ∧ w ≠ 0 := by
        rw [List.length_replicate]; omega
      rw [countActiveAux, if_pos hcond, List.take_replicate,
        List.drop_replicate]
      have hmin : w ⊓ n = w := min_eq_left (le_of_lt hwn)
      rw [hmin, hact, if_pos rfl, ih (n - w) (by omega)]
      have h1 : n - 1 = (n - w - 1) + w := by omega
      rw [h1, Nat.add_div_right _ (by omega : 0 < w)]
      omega
    · rw [countActiveAux, if_neg]
      · exact (Nat.div_eq_of_lt (by omega)).symm
      · rw [List.length_replicate]; omega

/-- Helper: the window scan on `n` constant samples above the threshold
yields `(n - 1) / w` active windows. -/
theorem countActive_replicate (cfg : DetectorConfig) (w n : ℕ) (a : ℚ)
    (hw : 1 ≤ w) (ha : cfg.silence_threshold < a) :
    countActive cfg w (List.replicate n a) = (n - 1) / w := by
  unfold countActive
  rw [List.length_replicate]
  exact countActiveAux_replicate cfg w a hw
    (windowActive_replicate cfg w a (by omega) ha) n n le_rfl

/-- C1 counterexample: at sample rate 100 with 10 samples of constant
amplitude 1 (well above the 0.005 threshold), the clip is exactly one full
window long, yet the scan `range(0, len - window_size, window_size)`
analyzes no window at all, so `speech_duration = 0` while
`floor(duration / window_seconds) * window_seconds = 0.1`. -/
theorem C1_counterexample :
    (analyze_audio_content defaultConfig
        (.ok 100 (List.replicate 10 (1 : ℚ)))).speech_duration
      ≠ ((⌊(analyze_audio_content defaultConfig
            (.ok 100 (List.replicate 10 (1 : ℚ)))).duration / (1/10)⌋ : ℚ))
          * (1/10) := by
  simp [analyze_audio_content, computeAnalysis, countActive, countActiveAux,
    windowActive, rmsSq, rmsGt, defaultConfig, List.replicate]
  norm_num

/-- C1 (amended): for constant amplitude `a` above the silence threshold and
sample rate `sr ≥ 10`, every analyzed window is active, but the scan
analyzes `(n - 1) / window_size` windows (`window_size = sr / 10`): it
discards the trailing partial window AND, when the sample count is an exact
multiple of the window size, the final full window as well, so
`speech_duration = ((n - 1) / window_size) * 0.1`. -/
theorem C1_speech_duration_constant_amplitude (cfg : DetectorConfig)
    (sr n : ℕ) (a : ℚ) (hsr : 10 ≤ sr) (ha : cfg.silence_threshold < a) :
    (analyze_audio_content cfg (.ok sr (List.replicate n a))).speech_duration
      = (((n - 1) / (sr / 10) : ℕ) : ℚ) * (1/10) := by
  have h0 : ¬ sr = 0 := by omega
  have h10 : ¬ sr / 10 = 0 := by omega
  simp only [analyze_audio_content, if_neg h0, if_neg h10, computeAnalysis]
  rw [countActive_replicate cfg (sr / 10) n a (by omega) ha]

/-- C1 witness: sample rate 100, 25 constant samples of amplitude 1: the
scan analyzes `(25 - 1) / 10 = 2` windows, giving 0.2 s of speech. -/
theorem C1_witness :
    10 ≤ 100 ∧ defaultConfig.silence_threshold < (1 : ℚ) ∧
    (analyze_audio_content defaultConfig
        (.ok 100 (List.replicate 25 (1 : ℚ)))).speech_duration
      = (((25 - 1) / (100 / 10) : ℕ) : ℚ) * (1/10) :=
  ⟨by norm_num, by norm_num [defaultConfig],
    C1_speech_duration_constant_amplitude defaultConfig 100 25 1 (by norm_num)
      (by norm_num [defaultConfig])⟩

/-- C2: on every analysis produced by the normal computation path (decoding
succeeded and the window is at least one sample, i.e. `sr ≥ 10`),
`has_speech` is exactly the conjunction of
`speech_duration ≥ min_speech_duration` and `rms_energy > silence_threshold`
(line 104 of the source; `rmsGt` renders the RMS comparison on means of
squares). -/
theorem C2_has_speech_derived (cfg : DetectorConfig) (sr : ℕ)
    (samples : List ℚ) (hsr : 10 ≤ sr) :
    (analyze_audio_content cfg (.ok sr samples)).has_speech
      = (decide (cfg.min_speech_duration
            ≤ (analyze_audio_content cfg (.ok sr samples)).speech_duration)
         && rmsGt (analyze_audio_content cfg (.ok sr samples)).rms_sq
              cfg.silence_threshold) := by
  have h0 : ¬ sr = 0 := by omega
  have h10 : ¬ sr / 10 = 0 := by omega
  simp [analyze_audio_content, if_neg h0, if_neg h10, computeAnalysis]

/-- C2 witness at sample rate 10 with one sample of amplitude 1. -/
theorem C2_witness :
    10 ≤ 10 ∧
    (analyze_audio_content defaultConfig (.ok 10 [(1 : ℚ)])).has_speech
      = (decide (defaultConfig.min_speech_duration
            ≤ (analyze_audio_content defaultConfig (.ok 10 [(1 : ℚ)])).speech_duration)
         && rmsGt (analyze_audio_content defaultConfig (.ok 10 [(1 : ℚ)])).rms_sq
              defaultConfig.silence_threshold) :=
  ⟨by norm_num, C2_has_speech_derived defaultConfig 10 [1] (by norm_num)⟩

/-- C3 counterexample: with `sample_rate = 0` the code does not fail with
any `InvalidAudioFormat` error; the ZeroDivisionError at line 86 is caught
by the fail-open handler, `analyze_audio_content` returns the fallback
analysis with `has_speech = true`, and the caller `process` proceeds to
transcription. -/
theorem C3_counterexample :
    analyze_audio_content defaultConfig (.ok 0 [(1 : ℚ)]) = fallbackAnalysis
  ∧ process_proceeds_to_transcription defaultConfig (.ok 0 [(1 : ℚ)]) = true :=
  ⟨rfl, rfl⟩

/-- C3 (amended): a non-positive sample rate is not fatal: the internal
ZeroDivisionError is swallowed by the fail-open handler, the fallback
analysis with `has_speech = true` is returned and the caller proceeds to
transcription.  An empty sample sequence with a normal sample rate raises
nothing: it yields a regular analysis with `speech_duration = 0` and
`has_speech = false`, so the caller skips transcription. -/
theorem C3_invalid_format_behavior (cfg : DetectorConfig) (samples : List ℚ)
    (sr : ℕ) (hsr : 10 ≤ sr) (hmin : 0 < cfg.min_speech_duration) :
    analyze_audio_content cfg (.ok 0 samples) = fallbackAnalysis
  ∧ process_proceeds_to_transcription cfg (.ok 0 samples) = true
  ∧ (analyze_audio_content cfg (.ok sr [])).has_speech = false
  ∧ process_proceeds_to_transcription cfg (.ok sr []) = false := by
  have h0 : ¬ sr = 0 := by omega
  have h10 : ¬ sr / 10 = 0 := by omega
  have hns : ¬ cfg.min_speech_duration ≤ (0 : ℚ) := not_le.mpr hmin
  refine ⟨rfl, rfl, ?_, ?_⟩ <;>
    simp [process_proceeds_to_transcription, analyze_audio_content,
      if_neg h0, if_neg h10, computeAnalysis, countActive, countActiveAux, hns]

/-- C3 witness at sample rate 44100 and the source's configuration. -/
theorem C3_witness :
    10 ≤ 44100 ∧ 0 < defaultConfig.min_speech_duration ∧
    (analyze_audio_content defaultConfig (.ok 0 [(1 : ℚ)]) = fallbackAnalysis
     ∧ process_proceeds_to_transcription defaultConfig (.ok 0 [(1 : ℚ)]) = true
     ∧ (analyze_audio_content defaultConfig (.ok 44100 [])).has_speech = false
     ∧ process_proceeds_to_transcription defaultConfig (.ok 44100 []) = false) :=
  ⟨by norm_num, by norm_num [defaultConfig],
    C3_invalid_format_behavior defaultConfig [1] 44100 (by norm_num)
      (by norm_num [defaultConfig])⟩

/-- C4: any exception while decoding or analyzing lands in the handler at
lines 117-119, which returns `has_speech = true` (fail-open), so a decode
failure never produces a silent no-speech verdict. -/
theorem C4_decode_failure_fail_open (cfg : DetectorConfig) :
    (analyze_audio_content cfg .failure).has_speech = true
  ∧ process_proceeds_to_transcription cfg .failure = true :=
  ⟨rfl, rfl⟩

/-- C5 counterexample: at sample rate 19 the window size floors to 1 sample,
each credited 0.1 s of speech although it spans only 1/19 s, so for 3 loud
samples `speech_duration = 0.2 > duration = 3/19` and
`silence_ratio = 1 - 0.2/(3/19) < 0`, outside `[0, 1]`. -/
theorem C5_counterexample :
    (analyze_audio_content defaultConfig
        (.ok 19 (List.replicate 3 (1 : ℚ)))).silence_ratio < 0 := by
  simp [analyze_audio_content, computeAnalysis, countActive, countActiveAux,
    windowActive, rmsSq, rmsGt, defaultConfig, List.replicate]
  norm_num

/-- C5 (amended): on the normal path `silence_ratio` equals
`1 - speech_duration / duration` when `duration > 0` and exactly `1` when
`duration = 0`, and it is always `≤ 1`; but it is NOT always in `[0, 1]`:
it can be negative when the sample rate is not a multiple of 10, because
each window then spans less than the 0.1 s it is credited with. -/
theorem C5_silence_ratio_formula (cfg : DetectorConfig) (sr : ℕ)
    (samples : List ℚ) (hsr : 10 ≤ sr) :
    ((analyze_audio_content cfg (.ok sr samples)).silence_ratio
      = if 0 < (analyze_audio_content cfg (.ok sr samples)).duration
        then 1 - (analyze_audio_content cfg (.ok sr samples)).speech_duration
              / (analyze_audio_content cfg (.ok sr samples)).duration
        else 1)
  ∧ (analyze_audio_content cfg (.ok sr samples)).silence_ratio ≤ 1 := by
  have h0 : ¬ sr = 0 := by omega
  have h10 : ¬ sr / 10 = 0 := by omega
  simp only [analyze_audio_content, if_neg h0, if_neg h10]
  constructor
  · rfl
  · show (computeAnalysis cfg sr samples).silence_ratio ≤ 1
    unfold computeAnalysis
    dsimp only
    split_ifs with h
    · have hnum : (0 : ℚ) ≤ (countActive cfg (sr / 10) samples : ℚ) * (1/10) := by
        positivity
      linarith [div_nonneg hnum h.le]
    · exact le_refl 1

/-- C5 witness at sample rate 19 with three samples of amplitude 1 (the
same input as the counterexample: the formula still holds there, and the
ratio is ≤ 1 even though it is negative). -/
theorem C5_witness :
    10 ≤ 19 ∧
    (((analyze_audio_content defaultConfig
          (.ok 19 (List.replicate 3 (1 : ℚ)))).silence_ratio
        = if 0 < (analyze_audio_content defaultConfig
              (.ok 19 (List.replicate 3 (1 : ℚ)))).duration
          then 1 - (analyze_audio_content defaultConfig
                (.ok 19 (List.replicate 3 (1 : ℚ)))).speech_duration
              / (analyze_audio_content defaultConfig
                  (.ok 19 (List.replicate 3 (1 : ℚ)))).duration
          else 1)
     ∧ (analyze_audio_content defaultConfig
          (.ok 19 (List.replicate 3 (1 : ℚ)))).silence_ratio ≤ 1) :=
  ⟨by norm_num,
    C5_silence_ratio_formula defaultConfig 19 (List.replicate 3 1) (by norm_num)⟩

/-- C10 counterexample: a decodable, non-empty, float-normalized mono input
with the positive sample rate 5 takes the exception fallback anyway:
`window_size = int(0.1 * 5) = 0`, so `range(0, len, 0)` raises ValueError
and the handler returns the zeroed fail-open analysis. -/
theorem C10_counterexample :
    analyze_audio_content defaultConfig (.ok 5 [(1 : ℚ)/2]) = fallbackAnalysis :=
  rfl

/-- C10 (amended): for decodable non-empty mono input the fallback branch is
avoided only when `sample_rate ≥ 10` (so the 100 ms window holds at least
one sample); then the normal computation path completes and its result is
distinct from the fallback analysis (its duration is positive). -/
theorem C10_normal_path (cfg : DetectorConfig) (sr : ℕ) (samples : List ℚ)
    (hsr : 10 ≤ sr) (hne : samples ≠ []) :
    analyze_audio_content cfg (.ok sr samples) = computeAnalysis cfg sr samples
  ∧ analyze_audio_content cfg (.ok sr samples) ≠ fallbackAnalysis := by
  have h0 : ¬ sr = 0 := by omega
  have h10 : ¬ sr / 10 = 0 := by omega
  have heq : analyze_audio_content cfg (.ok sr samples)
      = computeAnalysis cfg sr samples := by
    simp [analyze_audio_content, if_neg h0, if_neg h10]
  refine ⟨heq, ?_⟩
  rw [heq]
  intro hcontra
  have hd := congrArg AudioAnalysis.duration hcontra
  simp only [computeAnalysis, fallbackAnalysis] at hd
  rcases div_eq_zero_iff.mp hd with h | h
  · exact hne (List.length_eq_zero.mp (by exact_mod_cast h))
  · exact h0 (by exact_mod_cast h)

/-- C10 witness at sample rate 10 with one sample. -/
theorem C10_witness :
    10 ≤ 10 ∧ [(1 : ℚ)] ≠ [] ∧
    (analyze_audio_content defaultConfig (.ok 10 [(1 : ℚ)])
        = computeAnalysis defaultConfig 10 [(1 : ℚ)]
     ∧ analyze_audio_content defaultConfig (.ok 10 [(1 : ℚ)]) ≠ fallbackAnalysis) :=
  ⟨by norm_num, by simp,
    C10_normal_path defaultConfig 10 [1] (by norm_num) (by simp)⟩

/-- Helper: the filtering loop rejects every object entry without a
`confidence` key as LowConfidence (the default 0.5 is below 0.7), keeping
nothing. -/
theorem validateEntries_no_confidence (entries : List JValue)
    (h : entries.all entryOmitsConfidence = true) :
    validateEntries entries
      = some ([], entries.map (fun e => (e, Reason.LowConfidence))) := by
  induction entries with
  | nil => rfl
  | cons e rest ih =>
    rw [List.all_cons, Bool.and_eq_true] at h
    obtain ⟨he, hrest⟩ := h
    have hd : decide (((2 : ℚ))⁻¹ < 7/10) = true := by norm_num
    rcases e with q | b | s | _ | elems | fields
    case obj =>
      simp only [entryOmitsConfidence, Option.isNone_iff_eq_none] at he
      simp [validateEntries, he, pyLtNum, default_confidence,
        confidence_threshold, hd, ih hrest]
    all_goals simp [entryOmitsConfidence] at he

/-- C6 counterexample: an entry whose `confidence` field is present but
non-numeric does NOT fall back to the 0.5 default: `entry.get` only
defaults when the key is absent, so line 218 compares a string with 0.7 and
raises an uncaught TypeError — the call crashes instead of rejecting the
entry as LowConfidence. -/
theorem C6_counterexample :
    validate_and_print_transcript fallbackAnalysis
      (.ok [.obj [("confidence", .str "high")]]) = .crashed
  ∧ validate_and_print_transcript fallbackAnalysis
      (.ok [.obj [("confidence", .str "high")]])
      ≠ .success [] [(.obj [("confidence", .str "high")], .LowConfidence)] false := by
  have h : validate_and_print_transcript fallbackAnalysis
      (.ok [.obj [("confidence", .str "high")]]) = .crashed := by
    simp [validate_and_print_transcript, validateEntries, pyLtNum, List.lookup]
  exact ⟨h, by rw [h]; exact fun hc => VOutcome.noConfusion hc⟩

/-- C6 (amended): the 0.5 default applies only when the `confidence` field
is ABSENT; a present non-numeric confidence raises an uncaught TypeError
that crashes validation.  For a numeric confidence `c` the entry is
rejected as LowConfidence exactly when `c < 0.7`, so `c = 0.7` is kept and
`c = 0.69` is rejected; an absent confidence defaults to 0.5 and is
rejected. -/
theorem C6_confidence_filtering (analysis : AudioAnalysis) (c : ℚ) :
    (validate_and_print_transcript analysis
        (.ok [.obj [("confidence", .num c)]])
      = if c < confidence_threshold
        then .success [] [(.obj [("confidence", .num c)], .LowConfidence)] false
        else .success [.obj [("confidence", .num c)]] [] false)
  ∧ validate_and_print_transcript analysis (.ok [.obj []])
      = .success [] [(.obj [], .LowConfidence)] false
  ∧ validate_and_print_transcript analysis
      (.ok [.obj [("confidence", .str "high")]]) = .crashed := by
  have hem : 1 ≤ expectedMaxEntries analysis.speech_duration := le_max_left 1 _
  have hw : ¬ expectedMaxEntries analysis.speech_duration * 3 < (1 : ℤ) := by
    omega
  have hd : decide (((2 : ℚ))⁻¹ < 7/10) = true := by norm_num
  refine ⟨?_, ?_, ?_⟩
  · by_cases h : c < confidence_threshold
    · simp [validate_and_print_transcript, validateEntries, pyLtNum,
        List.lookup, h]
    · simp [validate_and_print_transcript, validateEntries, pyLtNum, pyLower,
        List.lookup, h, suspicious_phrases, hw]
  · simp [validate_and_print_transcript, validateEntries, pyLtNum,
      List.lookup, default_confidence, confidence_threshold, hd]
  · simp [validate_and_print_transcript, validateEntries, pyLtNum, List.lookup]

/-- C7: a JSON parse failure yields the ParseFailure outcome retaining the
raw text verbatim (lines 251-253 print the original string), while the
parsed empty array `"[]"` returns early at lines 205-207 as a success with
no validated entries, no rejections and no warning; the two outcomes are
distinct constructors, never conflated. -/
theorem C7_parse_failure_distinct (analysis : AudioAnalysis) (raw : String) :
    validate_and_print_transcript analysis (.failure raw) = .parseFailure raw
  ∧ validate_and_print_transcript analysis (.ok []) = .success [] [] false
  ∧ (VOutcome.parseFailure raw).isSuccess = false
  ∧ ∀ v r w, (VOutcome.success v r w).isSuccess = true :=
  ⟨rfl, rfl, rfl, fun _ _ _ => rfl⟩

/-- C8: with a nonnegative measured speech duration (true of every analysis
the detector produces), the sanity estimate is
`max(1, floor(speech_duration / 2))`, the warning is emitted exactly when
the validated count exceeds three times that estimate, and the validated
list delivered alongside is exactly the output of the filtering loop —
the warning never removes entries. -/
theorem C8_sanity_warning (analysis : AudioAnalysis) (entries : List JValue)
    (hs : 0 ≤ analysis.speech_duration)
    (v : List JValue) (r : List (JValue × Reason)) (warn : Bool)
    (h : validate_and_print_transcript analysis (.ok entries)
      = .success v r warn) :
    expectedMaxEntries analysis.speech_duration
      = max 1 ⌊analysis.speech_duration / 2⌋
  ∧ (warn = true
      ↔ expectedMaxEntries analysis.speech_duration * 3 < (v.length : ℤ))
  ∧ (entries = [] ∧ v = [] ∧ r = [] ∨ validateEntries entries = some (v, r)) := by
  have hfirst : expectedMaxEntries analysis.speech_duration
      = max 1 ⌊analysis.speech_duration / 2⌋ := by
    unfold expectedMaxEntries pyInt
    rw [if_pos (div_nonneg hs (by norm_num))]
  have hem : 1 ≤ expectedMaxEntries analysis.speech_duration := le_max_left 1 _
  unfold validate_and_print_transcript at h
  cases entries with
  | nil =>
    simp only [List.isEmpty_nil, if_true] at h
    injection h with h1 h2 h3
    subst h1; subst h2; subst h3
    refine ⟨hfirst, ?_, Or.inl ⟨rfl, rfl, rfl⟩⟩
    simp only [List.length_nil, Nat.cast_zero]
    constructor
    · intro hfalse; cases hfalse
    · intro hlt; omega
  | cons e rest =>
    simp only [List.isEmpty_cons] at h
    rcases hve : validateEntries (e :: rest) with _ | p
    · rw [hve] at h
      exact (VOutcome.noConfusion h)
    · rw [hve] at h
      obtain ⟨v', r'⟩ := p
      injection h with h1 h2 h3
      subst h1; subst h2; subst h3
      refine ⟨hfirst, ?_, Or.inr rfl⟩
      by_cases hv : 0 < v'.length
      · rw [if_pos hv]
        exact ⟨fun hdec => of_decide_eq_true hdec, fun hlt => decide_eq_true hlt⟩
      · rw [if_neg hv]
        constructor
        · intro hfalse; cases hfalse
        · intro hlt
          have hzero : v'.length = 0 := by omega
          rw [hzero] at hlt
          simp only [Nat.cast_zero] at hlt
          omega

/-- C8 witness: one kept entry with confidence 1 against the fallback
analysis (speech duration 0, estimate 1, threshold 3): no warning, and the
validated list is the loop's output. -/
theorem C8_witness :
    (0 : ℚ) ≤ fallbackAnalysis.speech_duration ∧
    (expectedMaxEntries fallbackAnalysis.speech_duration
        = max 1 ⌊fallbackAnalysis.speech_duration / 2⌋
     ∧ (false = true
          ↔ expectedMaxEntries fallbackAnalysis.speech_duration * 3
            < (([JValue.obj [("confidence", JValue.num 1)]].length : ℕ) : ℤ))
     ∧ ([JValue.obj [("confidence", JValue.num 1)]] = ([] : List JValue)
          ∧ ([JValue.obj [("confidence", JValue.num 1)]] : List JValue) = []
          ∧ ([] : List (JValue × Reason)) = []
        ∨ validateEntries [JValue.obj [("confidence", JValue.num 1)]]
            = some ([JValue.obj [("confidence", JValue.num 1)]], []))) :=
  ⟨by norm_num [fallbackAnalysis],
    C8_sanity_warning fallbackAnalysis [JValue.obj [("confidence", JValue.num 1)]]
      (by norm_num [fallbackAnalysis])
      [JValue.obj [("confidence", JValue.num 1)]] [] false
      (by
        have hlt : ¬ ((1 : ℚ) < 7/10) := by norm_num
        simp [validate_and_print_transcript, validateEntries, pyLtNum,
          pyLower, List.lookup, confidence_threshold, suspicious_phrases,
          expectedMaxEntries, pyInt, fallbackAnalysis, hlt])⟩

/-- C9: under the hard-coded configuration (default 0.5, threshold 0.7),
every object entry without a `confidence` key is rejected as LowConfidence,
so a parsed transcript in which no entry carries a confidence value always
validates to the empty list, with one LowConfidence rejection per entry and
no warning. -/
theorem C9_missing_confidence_rejected (analysis : AudioAnalysis)
    (entries : List JValue) (h : entries.all entryOmitsConfidence = true) :
    validate_and_print_transcript analysis (.ok entries)
      = .success [] (entries.map (fun e => (e, Reason.LowConfidence))) false := by
  cases entries with
  | nil => rfl
  | cons e rest =>
    simp [validate_and_print_transcript, validateEntries_no_confidence _ h]

/-- C9 witness: a two-entry transcript with text but no confidence fields
validates to the empty list with two LowConfidence rejections. -/
theorem C9_witness :
    ([JValue.obj [("text", JValue.str "hello")],
      JValue.obj [("speaker", JValue.str "Speaker 1")]].all
        entryOmitsConfidence = true) ∧
    validate_and_print_transcript fallbackAnalysis
        (.ok [JValue.obj [("text", JValue.str "hello")],
          JValue.obj [("speaker", JValue.str "Speaker 1")]])
      = .success []
          ([JValue.obj [("text", JValue.str "hello")],
            JValue.obj [("speaker", JValue.str "Speaker 1")]].map
            (fun e => (e, Reason.LowConfidence))) false :=
  ⟨by simp [entryOmitsConfidence, List.lookup],
    C9_missing_confidence_rejected fallbackAnalysis _
      (by simp [entryOmitsConfidence, List.lookup])⟩
